import Mathlib

/-!
Verification of the Nutanix PSO proposal builder: a shallow embedding of the
client orchestrator (public/script.js) and the Express proxy / catalog server
(server.js), with theorems about the spec's testable properties.

JS conventions modelled explicitly:
  * a missing DOM element or absent header is `Option.none`;
  * the JS `a || b` idiom on strings picks `b` exactly when `a` is empty.
-/

/-- The JS string idiom `a || b`: `b` when `a` is the empty string, else `a`. -/
def jsOr (a b : String) : String := if a = "" then b else a

/-- `(el && el.value) || d` for an optional DOM element: the default `d` when
the element is absent or its value is empty. -/
def optValOr (o : Option String) (d : String) : String := jsOr (o.getD "") d

/-- Apostrophe character (code 39), written by code to stay printable-safe. -/
def aposChar : Char := Char.ofNat 39

/-- Double-quote character (code 34). -/
def dquoteChar : Char := Char.ofNat 34

/-- Case-insensitive literal match at the head of a character list; returns the
remainder after the literal when it matches (the letter-by-letter engine behind
the `/i` flag of the filename regex in script.js). -/
def matchLiteralCI : List Char → List Char → Option (List Char)
  | [], s => some s
  | _, [] => none
  | l :: ls, c :: cs => if l.toLower = c.toLower then matchLiteralCI ls cs else none

/-- The literal `filename` as characters. -/
def filenameKey : List Char := String.toList "filename"

/-- Match `filename\*?=` (case-insensitively) at the head of the list,
returning the remainder after the `=`. The optional `*` must be immediately
followed by `=`, exactly as the regex `filename\*?=` backtracks. -/
def matchFilenameEq (s : List Char) : Option (List Char) :=
  match matchLiteralCI filenameKey s with
  | none => none
  | some rest =>
    match rest with
    | c1 :: c2 :: r => if c1 = Char.ofNat 42 then (if c2 = Char.ofNat 61 then some r else none)
                       else if c1 = Char.ofNat 61 then some (c2 :: r) else none
    | [c1] => if c1 = Char.ofNat 61 then some [] else none
    | [] => none

/-- Left-to-right scan for the first match of `/filename\*?=([^;]+)/i`,
returning the capture group (the maximal run of non-semicolon characters after
the `=`, which must be non-empty, else the scan continues). -/
def findFilenameCapture : List Char → Option (List Char)
  | [] => none
  | c :: cs =>
    match matchFilenameEq (c :: cs) with
    | some rest =>
      let cap := rest.takeWhile (fun ch => ch ≠ Char.ofNat 59)
      if cap.isEmpty then findFilenameCapture cs else some cap
    | none => findFilenameCapture cs

/-- Hex digit value of a character, if any. -/
def hexVal (c : Char) : Option Nat :=
  if Char.ofNat 48 ≤ c ∧ c ≤ Char.ofNat 57 then some (c.toNat - 48)
  else if Char.ofNat 97 ≤ c ∧ c ≤ Char.ofNat 102 then some (c.toNat - 87)
  else if Char.ofNat 65 ≤ c ∧ c ≤ Char.ofNat 70 then some (c.toNat - 55)
  else none

/-- Byte-wise model of `decodeURIComponent`: each `%XX` escape with valid hex
digits decodes to the character with that code; other characters pass through. -/
def percentDecode : List Char → List Char
  | p :: h1 :: h2 :: rest =>
    if p = Char.ofNat 37 then
      match hexVal h1, hexVal h2 with
      | some a, some b => Char.ofNat (16 * a + b) :: percentDecode rest
      | _, _ => p :: percentDecode (h1 :: h2 :: rest)
    else p :: percentDecode (h1 :: h2 :: rest)
  | p :: rest => p :: percentDecode rest
  | [] => []

/-- The marker `UTF-8` followed by two apostrophes, as characters. -/
def utf8Marker : List Char := String.toList "UTF-8" ++ [aposChar, aposChar]

/-- `.replace(/UTF-8''/i, '')`: delete the first case-insensitive occurrence of
the marker, if any. -/
def stripFirstCI (marker : List Char) : List Char → List Char
  | [] => []
  | c :: cs =>
    match matchLiteralCI marker (c :: cs) with
    | some rest => rest
    | none => c :: stripFirstCI marker cs

/-- `.replace(/['"]/g, '')`: delete every apostrophe and double quote. -/
def stripQuotes (s : List Char) : List Char :=
  s.filter (fun c => !(c = aposChar || c = dquoteChar))

/-- Filename derivation from the `Content-Disposition` header
(script.js lines 193-198): default `proposal.docx`; on a capture from
`/filename\*?=([^;]+)/i`, strip a `UTF-8''` marker, drop quotes, percent-decode. -/
def deriveFilename (cd : Option String) : String :=
  match findFilenameCapture (cd.getD "").toList with
  | none => "proposal.docx"
  | some cap => String.mk (percentDecode (stripQuotes (stripFirstCI utf8Marker cap)))

/-- The claim's concrete header value `attachment; filename="Proposal_X.docx"`. -/
def attachHeader : String :=
  "attachment; filename=" ++ String.mk [dquoteChar] ++ "Proposal_X.docx" ++ String.mk [dquoteChar]


/-- JS `String.prototype.trim`: strip leading and trailing whitespace. -/
def jsTrim (s : String) : String :=
  String.mk (((s.toList.dropWhile Char.isWhitespace).reverse.dropWhile Char.isWhitespace).reverse)

/-- The form state read by the generate-button click listener: each DOM element
is `none` when absent from the page, `some v` when present with value `v`;
the hardware-provider group carries the list of checked values in document
order (none when the group element is absent). -/
structure FormState where
  clientNameEl : Option String
  industrySelect : Option String
  industryCustomEl : Option String
  deploymentEl : Option String
  proposalTypeEl : Option String
  requirementsEl : Option String
  boqTextEl : Option String
  hwprovGroup : Option (List String)

/-- JS `Array.prototype.join` with separator `", "`. -/
def joinComma : List String → String
  | [] => ""
  | [v] => v
  | v :: rest => v ++ ", " ++ joinComma rest

/-- `getSelectedHardwareProviders` (script.js lines 77-85): empty string when
the group element is absent; otherwise the checked values, each trimmed, blank
ones dropped, joined with a comma and a space. -/
def getSelectedHardwareProviders (group : Option (List String)) : String :=
  match group with
  | none => ""
  | some vals => joinComma ((vals.map jsTrim).filter (fun v => v ≠ ""))

/-- UI deployment label to wire literal (script.js lines 129-132). -/
def apiDeployment (rawDeployment : String) : String :=
  if rawDeployment = "onsite" then "on-premise"
  else if rawDeployment = "dark_site" then "dark-site"
  else jsOr rawDeployment "hybrid"

/-- The JSON body POSTed to `/api/generate_proposal` (script.js lines 137-151). -/
structure Payload where
  customer_name : String
  industry : String
  deployment_type : String
  proposal_type : String
  hardware_choice : String
  requirements_text : String
  client_requirements : String
  client_boq : String
  boq_text : String
deriving DecidableEq

/-- `industryVal` (script.js lines 118-121): the custom field when the select
reads `other`, else the select value, empty when the select is absent. -/
def industryVal (f : FormState) : String :=
  if f.industrySelect.isSome ∧ f.industrySelect.getD "" = "other" then
    optValOr f.industryCustomEl ""
  else match f.industrySelect with
    | some v => v
    | none => ""

/-- Payload construction from form state (script.js lines 113-151). -/
def buildPayload (f : FormState) : Payload :=
  let clientName := optValOr f.clientNameEl "Client"
  let reqText := optValOr f.requirementsEl ""
  let rawDeployment := optValOr f.deploymentEl ""
  let proposalTypeVal := optValOr f.proposalTypeEl "detailed"
  let hwSelected := getSelectedHardwareProviders f.hwprovGroup
  let boqVal := optValOr f.boqTextEl ""
  { customer_name := clientName
    industry := jsOr (industryVal f) ""
    deployment_type := apiDeployment rawDeployment
    proposal_type := proposalTypeVal
    hardware_choice := jsOr hwSelected "Nutanix"
    requirements_text := reqText
    client_requirements := reqText
    client_boq := boqVal
    boq_text := boqVal }

/-- The wire-level `hardware_choice` as a function of the checked values when
the provider group exists: `getSelectedHardwareProviders` with the
`|| 'Nutanix'` fallback applied (script.js line 143). -/
def hardwareChoiceWire (vals : List String) : String :=
  jsOr (getSelectedHardwareProviders (some vals)) "Nutanix"

/-- The spec's words for C3, stated independently of the source: the
comma-joined list of the checked values (the source joins with a comma and a
space, so that separator is what the spec's phrase denotes). -/
def specCommaJoin (vals : List String) : String := joinComma vals

/-- The list `getSelectedHardwareProviders` joins: the checked values after
trimming each and dropping the blank ones (script.js lines 82-83). -/
def cleanedProviders (vals : List String) : List String :=
  (vals.map jsTrim).filter (fun v => v ≠ "")

/-- Outcome of the click listener before any network activity resolves:
whether the browser was redirected to `login.html`, whether the validation
alert fired, and the request payload when a fetch was dispatched. -/
structure ClickResult where
  redirectedToLogin : Bool
  alertedBlankRequirements : Bool
  request : Option Payload
deriving DecidableEq

/-- The generate-button click listener up to dispatch (script.js lines
104-173): redirect without fetching when the stored token is empty, alert
without fetching when the requirements text is blank, otherwise dispatch the
built payload. -/
def generateClick (token : String) (f : FormState) : ClickResult :=
  if token = "" then
    { redirectedToLogin := true, alertedBlankRequirements := false, request := none }
  else
    let reqText := optValOr f.requirementsEl ""
    if jsTrim reqText = "" then
      { redirectedToLogin := false, alertedBlankRequirements := true, request := none }
    else
      { redirectedToLogin := false, alertedBlankRequirements := false,
        request := some (buildPayload f) }

/-- How the single awaited fetch settles: a response with a status and an
optional `Content-Disposition` header, or a thrown/network failure. -/
inductive FetchOutcome where
  | response (status : Nat) (contentDisposition : Option String)
  | failure (message : String)
deriving DecidableEq

/-- Client UI state tracked across the dispatch lifecycle. -/
structure UIState where
  timerActive : Bool
  btnDisabled : Bool
  btnLabel : String
  progressOk : Option Bool
  redirectedToLogin : Bool
  alerted : Bool
  downloadedFilename : Option String
deriving DecidableEq

/-- The try/catch/finally around the fetch (script.js lines 156-219), given the
button label captured before dispatch and the way the fetch settles. The
button is disabled and the phase timer started before the call; a 401 response
redirects; a non-2xx response throws into the catch; a 2xx response downloads
under the derived filename; the finally block always stops the timer,
re-enables the button and restores its label. -/
def runGenerateDispatch (oldLabel : String) (outcome : FetchOutcome) : UIState :=
  let st0 : UIState :=
    { timerActive := true, btnDisabled := true, btnLabel := "Generating...",
      progressOk := none, redirectedToLogin := false, alerted := false,
      downloadedFilename := none }
  let stBody : UIState :=
    match outcome with
    | .failure _ => { st0 with progressOk := some false, alerted := true }
    | .response s cd =>
      if s = 401 then
        { st0 with redirectedToLogin := true, timerActive := false,
                   progressOk := some false, btnDisabled := false, btnLabel := oldLabel }
      else if 200 ≤ s ∧ s ≤ 299 then
        { st0 with downloadedFilename := some (deriveFilename cd), progressOk := some true }
      else
        { st0 with progressOk := some false, alerted := true }
  { stBody with timerActive := false, btnDisabled := false, btnLabel := oldLabel }

/-- A bare form: every element absent except the requirements text. -/
def bareForm (req : Option String) : FormState :=
  { clientNameEl := none, industrySelect := none, industryCustomEl := none,
    deploymentEl := none, proposalTypeEl := none, requirementsEl := req,
    boqTextEl := none, hwprovGroup := none }


/-- What the downstream generation engine sends back when the transport
succeeds: status, optional `content-type` and `content-disposition` headers
(`some ""` models a present-but-empty header value), and the body bytes. -/
structure DownstreamResponse where
  status : Nat
  contentType : Option String
  contentDisposition : Option String
  body : List Nat
deriving DecidableEq

/-- How the proxy's `fetch(GENERATE_URL, ...)` settles: a response, or a
transport-level rejection carrying its error detail. -/
inductive FetchResult where
  | ok (r : DownstreamResponse)
  | transportError (detail : String)
deriving DecidableEq

/-- Body of a proxy response: the JSON error object `{error: msg}` or the
relayed binary buffer. -/
inductive ProxyBody where
  | jsonError (msg : String)
  | binary (bytes : List Nat)
deriving DecidableEq

/-- A response written by the Express handler. -/
structure ProxyResponse where
  status : Nat
  body : ProxyBody
  contentType : Option String
  contentDisposition : Option String
deriving DecidableEq

/-- Everything observable about one run of the proxy handler: the response and
the body it forwarded downstream, with a call count (0 or 1 — the handler
fetches at most once and never retries). -/
structure ProxyTrace where
  response : ProxyResponse
  forwarded : Option String
  forwardCount : Nat
deriving DecidableEq

/-- The JS `headers.get(name) || default` idiom on an optional header. -/
def headerOr (h : Option String) (d : String) : String := jsOr (h.getD "") d

/-- `POST /api/generate_proposal` (server.js lines 121-138). `generateUrlEnv`
is the raw `process.env.GENERATE_URL` (empty string when unset, so the
`|| null` in the handler yields the 501 branch); `reqBody` is the serialized
JSON request body; `downstream` is how the single forwarded fetch settles. -/
def generateProposalHandler (generateUrlEnv : String) (reqBody : String)
    (downstream : FetchResult) : ProxyTrace :=
  if generateUrlEnv = "" then
    let resp : ProxyResponse :=
      { status := 501
        body := .jsonError "No generate endpoint configured on server (set GENERATE_URL in .env)"
        contentType := none
        contentDisposition := none }
    { response := resp, forwarded := none, forwardCount := 0 }
  else
    match downstream with
    | .transportError _ =>
      let resp : ProxyResponse :=
        { status := 500
          body := .jsonError "Failed to generate proposal"
          contentType := none
          contentDisposition := none }
      { response := resp, forwarded := some reqBody, forwardCount := 1 }
    | .ok r =>
      let cd := headerOr r.contentDisposition ""
      let resp : ProxyResponse :=
        { status := r.status
          body := .binary r.body
          contentType := some (headerOr r.contentType "application/octet-stream")
          contentDisposition := if cd = "" then none else some cd }
      { response := resp, forwarded := some reqBody, forwardCount := 1 }

/-- A row of the backing-store table, with the columns the catalog endpoints
select; optional columns are `none` when null. -/
structure CatalogRow where
  category_name : String
  service_name : String
  positioning : Option String
  description : Option String
  price_man_day : Option Nat
  duration_days : Option Nat
  default_days : Option Nat
deriving DecidableEq

/-- Postgres `ILIKE`: case-insensitive pattern match where `%` matches any
sequence and `_` matches any single character (the semantics of the
`.ilike('service_name', svc)` query the handler issues). -/
def ilikeChars : List Char → List Char → Bool
  | [], s => s.isEmpty
  | p :: ps, s =>
    if p = Char.ofNat 37 then
      (List.range (s.length + 1)).any (fun k => ilikeChars ps (s.drop k))
    else
      match s with
      | [] => false
      | c :: ss => (p = Char.ofNat 95 || p.toLower = c.toLower) && ilikeChars ps ss

/-- `ILIKE` on strings: `ilike pattern target`. -/
def ilike (pat target : String) : Bool := ilikeChars pat.toList target.toList

/-- Body of a `/api/service_details` response: a JSON error, the literal
`null`, or the first matching row. -/
inductive SDBody where
  | err (msg : String)
  | nullResult
  | row (r : CatalogRow)
deriving DecidableEq

/-- A `/api/service_details` response. -/
structure SDResponse where
  status : Nat
  body : SDBody
deriving DecidableEq

/-- `GET /api/service_details` (server.js lines 94-112). `svcParam` is the
`service_name` query parameter (`none` when omitted); `store` is the backing
table, or a backing-store fault. The handler 400s on a missing/empty
parameter before touching the store, 500s on a store fault, and otherwise
relays the first case-insensitive match or an explicit JSON `null`. -/
def serviceDetailsHandler (svcParam : Option String)
    (store : Except String (List CatalogRow)) : SDResponse :=
  let svc := svcParam.getD ""
  if svc = "" then { status := 400, body := .err "service_name required" }
  else
    match store with
    | .error _ => { status := 500, body := .err "Supabase error" }
    | .ok rows =>
      match (rows.filter (fun row => ilike svc row.service_name)).take 1 with
      | [] => { status := 200, body := .nullResult }
      | row :: _ => { status := 200, body := .row row }

/-- A sample catalog row for concrete checks. -/
def sampleRow : CatalogRow :=
  { category_name := "Cloud", service_name := "AOS Deployment", positioning := none,
    description := none, price_man_day := some 1, duration_days := none, default_days := none }


lemma length_zero_eq_empty (s : String) (h : s.length = 0) : s = "" := by
  cases s with
  | mk data =>
    cases data with
    | nil => rfl
    | cons c cs => simp [String.length] at h

lemma joinComma_ne_empty (v : String) (rest : List String) (hv : v ≠ "") :
    joinComma (v :: rest) ≠ "" := by
  cases rest with
  | nil => simpa [joinComma] using hv
  | cons a as =>
    intro h
    have h2 : (v ++ ", " ++ joinComma (a :: as)) = "" := h
    have hlen := congrArg String.length h2
    rw [String.length_append, String.length_append] at hlen
    have hsep : (", " : String).length = 2 := rfl
    have hemp : ("" : String).length = 0 := rfl
    rw [hsep, hemp] at hlen
    exact hv (length_zero_eq_empty v (by omega))

lemma runGenerateDispatch_success (lbl : String) (s : Nat) (cd : Option String)
    (h1 : 200 ≤ s) (h2 : s ≤ 299) :
    (runGenerateDispatch lbl (.response s cd)).downloadedFilename = some (deriveFilename cd) := by
  have h401 : ¬ s = 401 := by omega
  simp [runGenerateDispatch, h401, h1, h2]

/-- Claim C1: a successful (2xx) response whose `Content-Disposition` header is
exactly `attachment; filename="Proposal_X.docx"` downloads under the filename
`Proposal_X.docx`, and a successful response with no `Content-Disposition`
header downloads under the default literal `proposal.docx`. -/
theorem clientC1_filename_derivation (lbl : String) (s : Nat)
    (h1 : 200 ≤ s) (h2 : s ≤ 299) :
    (runGenerateDispatch lbl (.response s (some attachHeader))).downloadedFilename
      = some "Proposal_X.docx"
    ∧ (runGenerateDispatch lbl (.response s none)).downloadedFilename
      = some "proposal.docx" := by
  constructor
  · rw [runGenerateDispatch_success lbl s (some attachHeader) h1 h2]; decide
  · rw [runGenerateDispatch_success lbl s none h1 h2]; decide

/-- Witness for C1 at status 200. -/
theorem clientC1_filename_derivation_witness :
    (runGenerateDispatch "Generate" (.response 200 (some attachHeader))).downloadedFilename
      = some "Proposal_X.docx"
    ∧ (runGenerateDispatch "Generate" (.response 200 none)).downloadedFilename
      = some "proposal.docx" :=
  clientC1_filename_derivation "Generate" 200 (by decide) (by decide)

/-- Claim C2: the UI deployment label maps to the wire literal as `onsite` to
`on-premise`, `dark_site` to `dark-site`, any other non-empty label to itself,
and the empty label to `hybrid`. -/
theorem clientC2_deployment_mapping (raw : String) :
    apiDeployment "onsite" = "on-premise"
    ∧ apiDeployment "dark_site" = "dark-site"
    ∧ (raw ≠ "onsite" → raw ≠ "dark_site" → raw ≠ "" → apiDeployment raw = raw)
    ∧ apiDeployment "" = "hybrid" := by
  refine ⟨by decide, by decide, fun hon hds hne => ?_, by decide⟩
  simp [apiDeployment, hon, hds, jsOr, hne]

/-- Witness for C2 at the pass-through label `remote`. -/
theorem clientC2_deployment_mapping_witness : apiDeployment "remote" = "remote" :=
  (clientC2_deployment_mapping "remote").2.2.1 (by decide) (by decide) (by decide)

/-- Claim C3 counterexample: a checked option whose value is a single space is
a non-empty selection, yet the dispatched `hardware_choice` is `Nutanix`, not
the comma-join of the checked values (which is the space itself): the code
trims each value and drops blanks before joining. -/
theorem clientC3_counterexample :
    hardwareChoiceWire [" "] ≠ specCommaJoin [" "]
    ∧ hardwareChoiceWire [" "] = "Nutanix"
    ∧ ([" "] : List String) ≠ [] := by decide

/-- Claim C3 as amended: for every set of checked values, the dispatched
`hardware_choice` is the comma-space join of the trimmed, non-blank checked
values when that cleaned list is non-empty, the literal `Nutanix` when it is
empty (in particular when nothing is checked), and it is never the empty
string. -/
theorem clientC3_hardware_choice_amended (vals : List String) :
    (cleanedProviders vals ≠ [] →
      hardwareChoiceWire vals = specCommaJoin (cleanedProviders vals))
    ∧ (cleanedProviders vals = [] → hardwareChoiceWire vals = "Nutanix")
    ∧ hardwareChoiceWire vals ≠ "" := by
  have hwire : hardwareChoiceWire vals
      = jsOr (joinComma (cleanedProviders vals)) "Nutanix" := rfl
  cases hcl : cleanedProviders vals with
  | nil =>
    refine ⟨fun hne => absurd rfl hne, fun _ => ?_, ?_⟩
    · rw [hwire, hcl]; decide
    · rw [hwire, hcl]; decide
  | cons v vs =>
    have hv : v ≠ "" := by
      have hm : v ∈ cleanedProviders vals := by rw [hcl]; exact List.mem_cons_self v vs
      have hp := List.of_mem_filter hm
      simpa using hp
    have hjoin : joinComma (v :: vs) ≠ "" := joinComma_ne_empty v vs hv
    have hsel : jsOr (joinComma (v :: vs)) "Nutanix" = joinComma (v :: vs) := by
      simp [jsOr, hjoin]
    refine ⟨fun _ => ?_, fun heq => absurd heq (List.cons_ne_nil v vs), ?_⟩
    · rw [hwire, hcl, hsel]; rfl
    · rw [hwire, hcl, hsel]; exact hjoin

/-- Witness for the amended C3 at the raw selection with padded and blank
values: the cleaned list is `Dell`, `HPE` and the dispatched value is their
comma-space join. -/
theorem clientC3_hardware_choice_amended_witness :
    cleanedProviders [" Dell ", " ", "HPE"] ≠ []
    ∧ hardwareChoiceWire [" Dell ", " ", "HPE"]
        = specCommaJoin (cleanedProviders [" Dell ", " ", "HPE"])
    ∧ specCommaJoin (cleanedProviders [" Dell ", " ", "HPE"]) = "Dell, HPE" :=
  ⟨by decide,
   (clientC3_hardware_choice_amended [" Dell ", " ", "HPE"]).1 (by decide),
   by decide⟩

/-- Claim C4: with an empty stored token the click redirects to the login page
and dispatches nothing; with a token but blank (empty or whitespace-only)
requirements it raises the validation alert and dispatches nothing. -/
theorem clientC4_guards_block_dispatch (token : String) (f : FormState) :
    ((token = "" ∨ jsTrim (optValOr f.requirementsEl "") = "") →
      (generateClick token f).request = none)
    ∧ (token = "" → (generateClick token f).redirectedToLogin = true)
    ∧ (token ≠ "" → jsTrim (optValOr f.requirementsEl "") = "" →
      (generateClick token f).alertedBlankRequirements = true) := by
  refine ⟨fun hor => ?_, fun ht => ?_, fun ht hr => ?_⟩
  · rcases hor with ht | hr
    · simp [generateClick, ht]
    · by_cases ht : token = ""
      · simp [generateClick, ht]
      · simp [generateClick, ht, hr]
  · simp [generateClick, ht]
  · simp [generateClick, ht, hr]

/-- Witness for C4: no token blocks dispatch; blank requirements alert. -/
theorem clientC4_guards_block_dispatch_witness :
    (generateClick "" (bareForm (some "x"))).request = none
    ∧ (generateClick "tok" (bareForm (some "  "))).alertedBlankRequirements = true :=
  ⟨(clientC4_guards_block_dispatch "" (bareForm (some "x"))).1 (Or.inl rfl),
   (clientC4_guards_block_dispatch "tok" (bareForm (some "  "))).2.2 (by decide) (by decide)⟩

/-- Claim C5: with no downstream URL configured the proxy answers 501 with a
JSON error body and contacts no downstream; and any transport-level failure of
the single forwarded call yields a generic 500 with a fixed message,
independent of the failure detail, with exactly one downstream attempt. -/
theorem proxyC5_unconfigured_and_transport_failure (reqBody env d1 d2 : String)
    (r : FetchResult) (henv : env ≠ "") :
    (generateProposalHandler "" reqBody r).forwardCount = 0
    ∧ (generateProposalHandler "" reqBody r).response.status = 501
    ∧ (generateProposalHandler "" reqBody r).response.body
        = ProxyBody.jsonError "No generate endpoint configured on server (set GENERATE_URL in .env)"
    ∧ (generateProposalHandler env reqBody (.transportError d1)).response.status = 500
    ∧ (generateProposalHandler env reqBody (.transportError d1)).response.body
        = ProxyBody.jsonError "Failed to generate proposal"
    ∧ (generateProposalHandler env reqBody (.transportError d1)).forwardCount = 1
    ∧ generateProposalHandler env reqBody (.transportError d1)
        = generateProposalHandler env reqBody (.transportError d2) := by
  refine ⟨rfl, rfl, rfl, ?_, ?_, ?_, ?_⟩ <;> simp [generateProposalHandler, henv]

/-- Witness for C5 with a configured URL and two distinct transport faults. -/
theorem proxyC5_witness :
    (generateProposalHandler "" "body" (.transportError "timeout")).response.status = 501
    ∧ generateProposalHandler "http://gen:8000/gen" "body" (.transportError "timeout")
        = generateProposalHandler "http://gen:8000/gen" "body" (.transportError "ECONNREFUSED") :=
  ⟨(proxyC5_unconfigured_and_transport_failure "body" "http://gen:8000/gen" "timeout"
      "ECONNREFUSED" (.transportError "timeout") (by decide)).2.1,
   (proxyC5_unconfigured_and_transport_failure "body" "http://gen:8000/gen" "timeout"
      "ECONNREFUSED" (.transportError "timeout") (by decide)).2.2.2.2.2.2⟩

/-- Claim C6: with a configured downstream URL and a completed downstream call,
the proxy forwards the request body verbatim and relays the downstream body as
binary, the downstream `Content-Type` (defaulting to the generic binary type
when absent), the downstream `Content-Disposition` when present (non-empty),
and the downstream status unchanged. -/
theorem proxyC6_forward_relay (env reqBody : String) (r : DownstreamResponse)
    (henv : env ≠ "") :
    (generateProposalHandler env reqBody (.ok r)).forwarded = some reqBody
    ∧ (generateProposalHandler env reqBody (.ok r)).response.status = r.status
    ∧ (generateProposalHandler env reqBody (.ok r)).response.body = ProxyBody.binary r.body
    ∧ (r.contentType = none →
        (generateProposalHandler env reqBody (.ok r)).response.contentType
          = some "application/octet-stream")
    ∧ (∀ ct, r.contentType = some ct → ct ≠ "" →
        (generateProposalHandler env reqBody (.ok r)).response.contentType = some ct)
    ∧ (r.contentDisposition = none →
        (generateProposalHandler env reqBody (.ok r)).response.contentDisposition = none)
    ∧ (∀ c, r.contentDisposition = some c → c ≠ "" →
        (generateProposalHandler env reqBody (.ok r)).response.contentDisposition = some c) := by
  refine ⟨?_, ?_, ?_, fun hct => ?_, fun ct hct hne => ?_, fun hcd => ?_, fun c hcd hne => ?_⟩ <;>
    simp [generateProposalHandler, henv, headerOr, jsOr, *]

/-- Witness for C6 at a concrete downstream response. -/
theorem proxyC6_witness :
    (generateProposalHandler "http://gen:8000/gen" "body"
      (.ok { status := 200, contentType := none, contentDisposition := some "attachment",
             body := [80, 75] })).response.contentType = some "application/octet-stream" :=
  (proxyC6_forward_relay "http://gen:8000/gen" "body"
      { status := 200, contentType := none, contentDisposition := some "attachment",
        body := [80, 75] } (by decide)).2.2.2.1 rfl

/-- Claim C7: `GET /api/service_details` answers 400 when the `service_name`
query parameter is omitted or empty; with a parameter and no case-insensitive
match it answers an explicit JSON `null` with status 200 (not an error); and
otherwise it answers the first matching row. -/
theorem catalogC7_service_details (rows : List CatalogRow) (s : String)
    (r : CatalogRow) (rest : List CatalogRow) :
    (serviceDetailsHandler none (.ok rows)).status = 400
    ∧ (serviceDetailsHandler (some "") (.ok rows)).status = 400
    ∧ (s ≠ "" → rows.filter (fun row => ilike s row.service_name) = [] →
        serviceDetailsHandler (some s) (.ok rows) = { status := 200, body := .nullResult })
    ∧ (s ≠ "" → rows.filter (fun row => ilike s row.service_name) = r :: rest →
        serviceDetailsHandler (some s) (.ok rows) = { status := 200, body := .row r }) := by
  refine ⟨rfl, rfl, fun hs hfil => ?_, fun hs hfil => ?_⟩ <;>
    simp [serviceDetailsHandler, hs, hfil]

/-- Witness for C7: a miss yields the null result, a case-insensitive hit
yields the first matching row. -/
theorem catalogC7_service_details_witness :
    serviceDetailsHandler (some "zzz") (.ok [sampleRow]) = { status := 200, body := .nullResult }
    ∧ serviceDetailsHandler (some "aos deployment") (.ok [sampleRow])
        = { status := 200, body := .row sampleRow } :=
  ⟨(catalogC7_service_details [sampleRow] "zzz" sampleRow []).2.2.1 (by decide) (by decide),
   (catalogC7_service_details [sampleRow] "aos deployment" sampleRow []).2.2.2
      (by decide) (by decide)⟩

/-- Claim C8: however the dispatched fetch settles (2xx success, 401, any
other status, or a thrown failure), the phase timer ends cancelled, the
trigger button ends re-enabled, and its label ends restored to the text
captured before dispatch. -/
theorem clientC8_dispatch_cleanup (oldLabel : String) (outcome : FetchOutcome) :
    (runGenerateDispatch oldLabel outcome).timerActive = false
    ∧ (runGenerateDispatch oldLabel outcome).btnDisabled = false
    ∧ (runGenerateDispatch oldLabel outcome).btnLabel = oldLabel :=
  ⟨rfl, rfl, rfl⟩

/-- Claim C9: any dispatched payload carries identical values in its primary
and alias fields: `requirements_text` equals `client_requirements`, and
`client_boq` equals `boq_text`. -/
theorem clientC9_alias_fields (token : String) (f : FormState) (p : Payload)
    (hreq : (generateClick token f).request = some p) :
    p.requirements_text = p.client_requirements ∧ p.client_boq = p.boq_text := by
  by_cases ht : token = ""
  · simp [generateClick, ht] at hreq
  · by_cases hr : jsTrim (optValOr f.requirementsEl "") = ""
    · simp [generateClick, ht, hr] at hreq
    · simp [generateClick, ht, hr] at hreq
      subst hreq
      exact ⟨rfl, rfl⟩

/-- Witness for C9 at a concrete dispatched form. -/
theorem clientC9_alias_fields_witness :
    (buildPayload (bareForm (some "x"))).requirements_text
      = (buildPayload (bareForm (some "x"))).client_requirements
    ∧ (buildPayload (bareForm (some "x"))).client_boq
      = (buildPayload (bareForm (some "x"))).boq_text :=
  clientC9_alias_fields "tok" (bareForm (some "x")) (buildPayload (bareForm (some "x")))
    (by decide)

/-- Claim C10: when the client-name input is absent or empty, the dispatched
payload's `customer_name` is the default literal `Client`. -/
theorem clientC10_default_customer_name (token : String) (f : FormState) (p : Payload)
    (hname : f.clientNameEl = none ∨ f.clientNameEl = some "")
    (hreq : (generateClick token f).request = some p) :
    p.customer_name = "Client" := by
  by_cases ht : token = ""
  · simp [generateClick, ht] at hreq
  · by_cases hr : jsTrim (optValOr f.requirementsEl "") = ""
    · simp [generateClick, ht, hr] at hreq
    · simp [generateClick, ht, hr] at hreq
      subst hreq
      show optValOr f.clientNameEl "Client" = "Client"
      rcases hname with h0 | h0 <;> rw [h0] <;> rfl

/-- Witness for C10 at a form with no client-name input. -/
theorem clientC10_default_customer_name_witness :
    (buildPayload (bareForm (some "x"))).customer_name = "Client" :=
  clientC10_default_customer_name "tok" (bareForm (some "x"))
    (buildPayload (bareForm (some "x"))) (Or.inl rfl) (by decide)
